import Mathlib

/-!
# Verification of the globalsurvey cap/eligibility and identity logic

Shallow embedding of the survey-reward application's core state logic:
the per-user daily stats bookkeeping in `Dashboard.tsx` (date rollover,
reward processing, the three survey-start gates, the home-view block
state), the identity/session operations in `App.tsx` (registration with
referral bonus, profile write-through), and the OTP verification state
in `RegisterForm.tsx` / `LoginForm.tsx`.

Monetary amounts, scores and counters are JavaScript numbers used at
integer values throughout the source, so they are modelled as `Int`.
Optional TypeScript fields (`dailyCount?`, `dailyLimit?`, ...) are
modelled as `Option`; the source's defaulting idioms `x ?? d` and
`x || d` are modelled by `Option.getD` and by `jsOr` below (for a
numeric field, JavaScript `||` also replaces the value `0`).
-/

namespace GlobalSurvey

/-- JavaScript `x || d` on an optional numeric field: `undefined` and the
falsy number `0` are both replaced by the default. -/
def jsOr (x : Option Int) (d : Int) : Int :=
  match x with
  | none => d
  | some v => if v = 0 then d else v

/-- JavaScript `String.prototype.toLowerCase()` (the usernames handled
here are plain ASCII identifiers). -/
def jsToLower (s : String) : String := ⟨s.data.map Char.toLower⟩

/-- JavaScript `String.prototype.trim()`: strip whitespace from both
ends. -/
def jsTrim (s : String) : String :=
  ⟨((s.data.dropWhile Char.isWhitespace).reverse.dropWhile Char.isWhitespace).reverse⟩

/-- `UserStats` from `App.tsx`: the fields marked optional there are
`dailyCount`, `lastSurveyDate`, `dailyEarnings`, `dailyLimit`. -/
structure UserStats where
  earnings : Int
  performance : Int
  eligibility : Int
  surveysCompleted : Int
  dailyCount : Option Int
  lastSurveyDate : Option String
  dailyEarnings : Option Int
  dailyLimit : Option Int
  deriving Repr, DecidableEq

/-- `EarningEntry` from `App.tsx`. -/
structure EarningEntry where
  id : Int
  date : String
  amount : Int
  title : String
  deriving Repr, DecidableEq

/-- `UserSettings` from `App.tsx` (notification toggles and language). -/
structure UserSettings where
  email : Bool
  sms : Bool
  marketing : Bool
  language : String
  deriving Repr, DecidableEq

/-- `UserData` from `App.tsx`.  The `profile` field has type `any` in the
source and is never inspected by the logic modelled here, so it is kept
as an opaque optional string. -/
structure UserData where
  username : String
  password : Option String
  mpesaCode : Option String
  profile : Option String
  stats : Option UserStats
  earningsHistory : Option (List EarningEntry)
  settings : Option UserSettings
  deriving Repr, DecidableEq

/-- `SurveyOption` catalog entry from `Dashboard.tsx` (fields not used by
the reward computation are kept for completeness). -/
structure SurveyOption where
  id : String
  title : String
  category : String
  timeMinutes : Int
  reward : Int
  description : String
  deriving Repr, DecidableEq

/-! ## Dashboard: date rollover, gates, reward processing -/

/-- The literal default stats object in the `stats` useState initializer
of `Dashboard.tsx` (used when `currentUser.stats` is absent). -/
def dashboardDefaultStats (today : String) : UserStats :=
  { earnings := 0, performance := 65, eligibility := 40, surveysCompleted := 0,
    dailyCount := some 0, lastSurveyDate := some today,
    dailyEarnings := some 0, dailyLimit := some 250 }

/-- The `stats` useState initializer of `Dashboard.tsx`: take the stored
stats (or the defaults), reset the daily counters when the stored
`lastSurveyDate` differs from today, otherwise default missing daily
fields, in both cases stamping today and applying `dailyLimit || 250`. -/
def initStats (userStats : Option UserStats) (today : String) : UserStats :=
  let current := userStats.getD (dashboardDefaultStats today)
  if current.lastSurveyDate ≠ some today then
    { current with
      dailyCount := some 0,
      dailyEarnings := some 0,
      lastSurveyDate := some today,
      dailyLimit := some (jsOr current.dailyLimit 250) }
  else
    { current with
      dailyCount := some (current.dailyCount.getD 0),
      dailyEarnings := some (current.dailyEarnings.getD 0),
      lastSurveyDate := some today,
      dailyLimit := some (jsOr current.dailyLimit 250) }

/-- `GLOBAL_DAILY_CAP` in `Dashboard.tsx`. -/
def GLOBAL_DAILY_CAP : Int := 100000

/-- `currentDailyCap` in `Dashboard.tsx`: `stats.dailyLimit || 250`. -/
def currentDailyCap (stats : UserStats) : Int :=
  jsOr stats.dailyLimit 250

/-- `DAILY_LIMIT` in `Dashboard.tsx`: 7 for a high performer
(`performance >= 75`), else 3. -/
def DAILY_LIMIT (stats : UserStats) : Int :=
  if stats.performance ≥ 75 then 7 else 3

/-- Outcome of the survey-start eligibility check in
`handleSurveySelect` (`Dashboard.tsx`). -/
inductive StartResult where
  | blockedGlobal
  | blockedEarnings
  | blockedCount
  | proceed
  deriving Repr, DecidableEq

/-- The three-gate check at the top of `handleSurveySelect`
(`Dashboard.tsx`): global cap, then daily earnings cap, then
daily survey-count cap; the survey proceeds only past all three. -/
def canStartSurvey (globalCount : Int) (stats : UserStats) : StartResult :=
  if globalCount ≥ GLOBAL_DAILY_CAP then .blockedGlobal
  else if jsOr stats.dailyEarnings 0 ≥ currentDailyCap stats then .blockedEarnings
  else if jsOr stats.dailyCount 0 ≥ DAILY_LIMIT stats then .blockedCount
  else .proceed

/-- Result of `handleProcessRewards` (`Dashboard.tsx`): the updated
stats, the new history entry, and the returned earned amount. -/
structure RewardResult where
  stats : UserStats
  entry : EarningEntry
  earned : Int
  deriving Repr, DecidableEq

/-- `handleProcessRewards` (`Dashboard.tsx`).  The random draws are
explicit inputs: `variance = Math.floor(Math.random() * 16) - 5`,
`perfBoost = Math.floor(Math.random() * 8) + 2`,
`eligBoost = Math.floor(Math.random() * 12) + 5`; `entryId` stands for
`Date.now()` and `entryDate` for the formatted date string. -/
def handleProcessRewards (stats : UserStats) (earningsHistory : List EarningEntry)
    (selectedSurvey : Option SurveyOption)
    (variance perfBoost eligBoost : Int) (today entryDate : String) (entryId : Int) :
    RewardResult × List EarningEntry :=
  let baseReward := match selectedSurvey with
    | some s => s.reward
    | none => 50
  let earnedAmount₀ := max 10 (baseReward + variance)
  let currentDaily := jsOr stats.dailyEarnings 0
  let effectiveLimit := jsOr stats.dailyLimit 250
  let earnedAmount :=
    if currentDaily + earnedAmount₀ > effectiveLimit then
      max 0 (effectiveLimit - currentDaily)
    else earnedAmount₀
  let newStats : UserStats :=
    { earnings := stats.earnings + earnedAmount,
      performance := min 100 (stats.performance + perfBoost),
      eligibility := min 100 (stats.eligibility + eligBoost),
      surveysCompleted := stats.surveysCompleted + 1,
      dailyCount := some (jsOr stats.dailyCount 0 + 1),
      dailyEarnings := some (currentDaily + earnedAmount),
      lastSurveyDate := some today,
      dailyLimit := some effectiveLimit }
  let newEntry : EarningEntry :=
    { id := entryId, date := entryDate, amount := earnedAmount,
      title := match selectedSurvey with
        | some s => s.title
        | none => "Premium Survey #" ++ toString newStats.surveysCompleted }
  (⟨newStats, newEntry, earnedAmount⟩, newEntry :: earningsHistory)

/-! ## Dashboard: home-view block state -/

/-- `remainingEarnings` in `Dashboard.tsx`:
`Math.max(0, currentDailyCap - (stats.dailyEarnings || 0))`. -/
def remainingEarnings (stats : UserStats) : Int :=
  max 0 (currentDailyCap stats - jsOr stats.dailyEarnings 0)

/-- `remainingSurveys` in `Dashboard.tsx`. -/
def remainingSurveys (stats : UserStats) : Int :=
  max 0 (DAILY_LIMIT stats - jsOr stats.dailyCount 0)

/-- `remainingGlobal` in `Dashboard.tsx`. -/
def remainingGlobal (globalCount : Int) : Int :=
  max 0 (GLOBAL_DAILY_CAP - globalCount)

/-- `isEarningsLimitReached` in `Dashboard.tsx`: the home view treats
the start action as earnings-blocked when fewer than 10 (the minimum
survey reward) remain under the cap. -/
def isEarningsLimitReached (stats : UserStats) : Bool :=
  remainingEarnings stats < 10

/-- `isUserLimitReached` in `Dashboard.tsx`. -/
def isUserLimitReached (stats : UserStats) : Bool :=
  remainingSurveys stats = 0

/-- `isGlobalLimitReached` in `Dashboard.tsx`. -/
def isGlobalLimitReached (globalCount : Int) : Bool :=
  remainingGlobal globalCount = 0

/-- `isBlocked` in `Dashboard.tsx`. -/
def isBlocked (globalCount : Int) (stats : UserStats) : Bool :=
  isGlobalLimitReached globalCount || isUserLimitReached stats ||
    isEarningsLimitReached stats

/-- The `disabled` condition of the start-survey button in
`Dashboard.tsx`:
`isBlocked && !(isEarningsLimitReached && currentDailyCap < 1000)`. -/
def startButtonDisabled (globalCount : Int) (stats : UserStats) : Bool :=
  isBlocked globalCount stats &&
    !(isEarningsLimitReached stats && currentDailyCap stats < 1000)

/-! ## Identity & session: registration, referral bonus, profile update -/

/-- The default stats attached to a new user in `handleRegisterSuccess`
(`App.tsx`). -/
def registrationDefaultStats (today : String) : UserStats :=
  { earnings := 0, performance := 65, eligibility := 40, surveysCompleted := 0,
    dailyCount := some 0, lastSurveyDate := some today,
    dailyEarnings := some 0, dailyLimit := some 250 }

/-- The default settings attached to a new user in
`handleRegisterSuccess` (`App.tsx`). -/
def registrationDefaultSettings : UserSettings :=
  { email := true, sms := true, marketing := false, language := "en" }

/-- `userWithDefaults` built at the top of `handleRegisterSuccess`
(`App.tsx`): the submitted user record with the fixed default stats,
empty history and default settings. -/
def userWithDefaults (newUser : UserData) (today : String) : UserData :=
  { newUser with
    stats := some (registrationDefaultStats today),
    earningsHistory := some [],
    settings := some registrationDefaultSettings }

/-- The bonus history entry built for the referrer in
`handleRegisterSuccess` (`App.tsx`): amount 50, title
`Referral Bonus: <new username>`. -/
def referralEntry (entryId : Int) (entryDate newUsername : String) : EarningEntry :=
  { id := entryId, date := entryDate, amount := 50,
    title := "Referral Bonus: " ++ newUsername }

/-- The referrer update in `handleRegisterSuccess` (`App.tsx`): default
missing stats (`referrer.stats || {...}`), add the KES 50 bonus to
`earnings`, and prepend the bonus entry to
`referrer.earningsHistory || []`. -/
def creditReferrer (u : UserData) (entryId : Int) (entryDate newUsername today : String) :
    UserData :=
  let currentStats := u.stats.getD (registrationDefaultStats today)
  { u with
    stats := some { currentStats with earnings := currentStats.earnings + 50 },
    earningsHistory :=
      some (referralEntry entryId entryDate newUsername :: u.earningsHistory.getD []) }

/-- The referral lookup-and-update in `handleRegisterSuccess`
(`App.tsx`): `findIndex` of the first user whose username equals the
referral code exactly, followed by replacement of that one element.
Implemented as first-match replacement, which is what
`findIndex` + indexed assignment compute. -/
def creditFirstMatch (code : String) (entryId : Int) (entryDate newUsername today : String) :
    List UserData → List UserData
  | [] => []
  | u :: rest =>
    if u.username = code then
      creditReferrer u entryId entryDate newUsername today :: rest
    else
      u :: creditFirstMatch code entryId entryDate newUsername today rest

/-- `handleRegisterSuccess` (`App.tsx`): append the new user (with the
fixed registration defaults) to the registered list; if a referral code
was captured, is truthy (non-empty), and differs from the new user's
own username, credit the first exactly-matching user with the KES 50
bonus.  Returns the updated registered-user list and the new session
(the final `setCurrentUser(userWithDefaults)` overwrites the
intermediate referrer session update, so the session is always the new
user). -/
def handleRegisterSuccess (registeredUsers : List UserData)
    (referralCode : Option String) (newUser : UserData)
    (today entryDate : String) (entryId : Int) : List UserData × UserData :=
  let uwd := userWithDefaults newUser today
  let updatedUserList := registeredUsers ++ [uwd]
  let finalList :=
    match referralCode with
    | none => updatedUserList
    | some code =>
      if code ≠ "" ∧ code ≠ newUser.username then
        creditFirstMatch code entryId entryDate newUser.username today updatedUserList
      else updatedUserList
  (finalList, uwd)

/-- Validation errors raised by `handleDetailsSubmit`
(`RegisterForm.tsx`). -/
inductive RegError where
  | duplicate
  | badPassword
  | badMpesa
  deriving Repr, DecidableEq

/-- `validatePassword` (`RegisterForm.tsx`): at least 8 characters, no
underscore, at least one uppercase and one lowercase letter. -/
def validPassword (pwd : String) : Bool :=
  pwd.length ≥ 8 && !pwd.contains '_' &&
    pwd.data.any Char.isUpper && pwd.data.any Char.isLower

/-- The M-Pesa transaction-code pattern `/^[A-Za-z0-9]{10}$/`
(`RegisterForm.tsx` and `LimitUpgradeView`). -/
def validMpesa (code : String) : Bool :=
  code.length = 10 && code.data.all Char.isAlphanum

/-- The duplicate-account check in `handleDetailsSubmit`
(`RegisterForm.tsx`): some registered user's username equals the
trimmed candidate username case-insensitively. -/
def duplicateExists (registeredUsers : List UserData) (username : String) : Bool :=
  registeredUsers.any (fun u => jsToLower u.username = jsToLower (jsTrim username))

/-- The validation chain of `handleDetailsSubmit` (`RegisterForm.tsx`),
in source order: duplicate check, password policy, M-Pesa code
pattern.  `none` means validation passed and the flow proceeds to the
OTP step. -/
def handleDetailsSubmit (registeredUsers : List UserData)
    (username password mpesaCode : String) : Option RegError :=
  if duplicateExists registeredUsers username then some .duplicate
  else if !validPassword password then some .badPassword
  else if !validMpesa mpesaCode then some .badMpesa
  else none

/-- Outcome of one registration attempt: on a validation failure the
handler returns early, so the registered-user store is left exactly as
it was (the store field records it); on success the flow eventually
reaches `handleRegisterSuccess`, which appends the new record. -/
inductive RegAttemptResult where
  | failed (e : RegError) (store : List UserData)
  | succeeded (store : List UserData) (session : UserData)
  deriving Repr, DecidableEq

/-- A whole registration attempt: `handleDetailsSubmit` validation
(`RegisterForm.tsx`), then — after the OTP and confirmation steps,
which mutate nothing — `handleRegisterSuccess` (`App.tsx`). -/
def registerAttempt (registeredUsers : List UserData)
    (referralCode : Option String) (newUser : UserData)
    (today entryDate : String) (entryId : Int) : RegAttemptResult :=
  match handleDetailsSubmit registeredUsers newUser.username
      (newUser.password.getD "") (newUser.mpesaCode.getD "") with
  | some e => .failed e registeredUsers
  | none =>
    let r := handleRegisterSuccess registeredUsers referralCode newUser today entryDate entryId
    .succeeded r.1 r.2

/-- A `Partial<UserData>` as passed to `handleUpdateUser` (`App.tsx`):
each field may be absent (outer `none` = key not present, so the
current value is kept by the spread merge). -/
structure PartialUserData where
  username : Option String := none
  password : Option (Option String) := none
  mpesaCode : Option (Option String) := none
  profile : Option (Option String) := none
  stats : Option (Option UserStats) := none
  earningsHistory : Option (Option (List EarningEntry)) := none
  settings : Option (Option UserSettings) := none
  deriving Repr, DecidableEq

/-- The spread merge `{ ...currentUser, ...updatedData }` in
`handleUpdateUser` (`App.tsx`): fields present in the partial record
overwrite, all others are kept. -/
def mergeUser (u : UserData) (p : PartialUserData) : UserData :=
  { username := p.username.getD u.username,
    password := p.password.getD u.password,
    mpesaCode := p.mpesaCode.getD u.mpesaCode,
    profile := p.profile.getD u.profile,
    stats := p.stats.getD u.stats,
    earningsHistory := p.earningsHistory.getD u.earningsHistory,
    settings := p.settings.getD u.settings }

/-- `handleUpdateUser` (`App.tsx`): with no session it is a no-op;
otherwise the merged record becomes the session and replaces every
registered entry whose username equals the session's (pre-update)
username. -/
def handleUpdateUser (currentUser : Option UserData) (registeredUsers : List UserData)
    (updatedData : PartialUserData) : Option UserData × List UserData :=
  match currentUser with
  | none => (none, registeredUsers)
  | some cu =>
    let updatedUser := mergeUser cu updatedData
    (some updatedUser,
      registeredUsers.map (fun u => if u.username = cu.username then updatedUser else u))

/-! ## OTP verification state -/

/-- The OTP state held by `RegisterForm.tsx` / `LoginForm.tsx`: the
most recently generated code (`generatedOtp`). -/
structure OtpState where
  generatedOtp : String
  deriving Repr, DecidableEq

/-- `handleOtpSubmit` (`RegisterForm.tsx`): verification succeeds
exactly when the entered string equals the last generated code. -/
def verifyOtp (st : OtpState) (entered : String) : Bool :=
  entered = st.generatedOtp

/-- `handleResendOtp` (`RegisterForm.tsx` / `LoginForm.tsx`): a fresh
code (AI-generated or the local random 5-digit fallback — here an
explicit input) replaces the stored one. -/
def resendOtp (st : OtpState) (newCode : String) : OtpState :=
  { st with generatedOtp := newCode }

/-! ## Concrete sample data (for closed instances) -/

/-- A registered referrer named exactly "alice", with 100 in cumulative
earnings and an empty history. -/
def sampleAlice : UserData :=
  ⟨"alice", none, none, none,
    some ⟨100, 65, 40, 0, some 0, some "day", some 0, some 250⟩, some [], none⟩

/-- A registered user whose stored username is "Alice" (capitalised). -/
def sampleAliceCased : UserData :=
  ⟨"Alice", some "Password1", some "QWERTYUI12", none, none, none, none⟩

/-- A freshly submitted registration record for "bob". -/
def sampleBob : UserData :=
  ⟨"bob", some "Password1", some "QWERTYUI12", none, none, none, none⟩

/-! ## Helper lemmas -/

theorem jsOr_none (d : Int) : jsOr none d = d := rfl

theorem jsOr_some (v d : Int) : jsOr (some v) d = if v = 0 then d else v := rfl

/-- Re-defaulting an already defaulted `dailyLimit` is the identity:
`(x || 250) || 250 = x || 250`. -/
theorem jsOr_jsOr_250 (x : Option Int) : jsOr (some (jsOr x 250)) 250 = jsOr x 250 := by
  cases x with
  | none => rfl
  | some v =>
    by_cases h : v = 0 <;> simp [jsOr, h]

/-! ## C4: tier-dependent daily survey-count limit -/

/-- C4: the daily survey-count limit used by the count gate is 7 when
the performance score is at least 75 and 3 otherwise; in particular a
performance score of exactly 75 yields the limit 7. -/
theorem daily_limit_tier (stats : UserStats) :
    (75 ≤ stats.performance → DAILY_LIMIT stats = 7) ∧
    (stats.performance < 75 → DAILY_LIMIT stats = 3) ∧
    (stats.performance = 75 → DAILY_LIMIT stats = 7) := by
  simp only [DAILY_LIMIT]
  refine ⟨fun h => ?_, fun h => ?_, fun h => ?_⟩
  · rw [if_pos (by omega)]
  · rw [if_neg (by omega)]
  · rw [if_pos (by omega)]

theorem daily_limit_tier_witness :
    (75 : Int) ≤ 75 ∧
      DAILY_LIMIT ⟨0, 75, 40, 0, some 0, some "day", some 0, some 250⟩ = 7 :=
  ⟨by decide,
    (daily_limit_tier ⟨0, 75, 40, 0, some 0, some "day", some 0, some 250⟩).1 (by decide)⟩

/-! ## C3: the three survey-start gates, first failure wins -/

/-- C3: `handleSurveySelect` checks three gates in a fixed order with
the first failing gate deciding the outcome — the global gate
(`globalCount ≥ 100000`, regardless of user state), then the earnings
gate (`dailyEarnings ≥ dailyLimit`), then the count gate
(`dailyCount ≥ DAILY_LIMIT`); a survey is started only when all three
pass. -/
theorem canStartSurvey_gates (globalCount : Int) (stats : UserStats) :
    (canStartSurvey globalCount stats = .blockedGlobal ↔
      GLOBAL_DAILY_CAP ≤ globalCount) ∧
    (canStartSurvey globalCount stats = .blockedEarnings ↔
      globalCount < GLOBAL_DAILY_CAP ∧
        currentDailyCap stats ≤ jsOr stats.dailyEarnings 0) ∧
    (canStartSurvey globalCount stats = .blockedCount ↔
      globalCount < GLOBAL_DAILY_CAP ∧
        jsOr stats.dailyEarnings 0 < currentDailyCap stats ∧
        DAILY_LIMIT stats ≤ jsOr stats.dailyCount 0) ∧
    (canStartSurvey globalCount stats = .proceed ↔
      globalCount < GLOBAL_DAILY_CAP ∧
        jsOr stats.dailyEarnings 0 < currentDailyCap stats ∧
        jsOr stats.dailyCount 0 < DAILY_LIMIT stats) := by
  simp only [canStartSurvey]
  split_ifs with h1 h2 h3 <;>
    refine ⟨?_, ?_, ?_, ?_⟩ <;>
    constructor <;>
    intro h <;>
    first
      | omega
      | rfl
      | simp_all

/-! ## C10: home-view earnings block is stricter than the selection gate -/

/-- C10: on the dashboard home view the start action counts as blocked
by the earnings limit exactly when `dailyLimit - dailyEarnings < 10`
(less than the minimum survey reward); hence there are states with
`dailyEarnings < dailyLimit` where the start button is disabled even
though the earnings gate applied in `handleSurveySelect` would pass
(shown at `dailyEarnings = 995`, `dailyLimit = 1000`). -/
theorem home_earnings_block (stats : UserStats) :
    (isEarningsLimitReached stats = true ↔
      currentDailyCap stats - jsOr stats.dailyEarnings 0 < 10) ∧
    (jsOr (⟨0, 65, 40, 0, some 0, some "day", some 995, some 1000⟩ :
          UserStats).dailyEarnings 0 <
        currentDailyCap ⟨0, 65, 40, 0, some 0, some "day", some 995, some 1000⟩ ∧
      isEarningsLimitReached ⟨0, 65, 40, 0, some 0, some "day", some 995, some 1000⟩ = true ∧
      startButtonDisabled 0 ⟨0, 65, 40, 0, some 0, some "day", some 995, some 1000⟩ = true ∧
      canStartSurvey 0 ⟨0, 65, 40, 0, some 0, some "day", some 995, some 1000⟩ = .proceed) := by
  constructor
  · simp only [isEarningsLimitReached, remainingEarnings, decide_eq_true_eq]
    omega
  · refine ⟨by decide, by decide, by decide, by decide⟩

/-! ## C1: reward variance, floor, and daily-cap clamp -/

/-- C1: for every call of `handleProcessRewards`, the realized reward
is the selected survey's nominal reward (or 50 with none selected)
plus the integer variance (drawn from `[-5, 10]`), floored at 10, then
clamped to the room left under the daily cap; consequently
`0 ≤ reward ≤ max 0 (dailyLimit - dailyEarningsBefore)`, the new
daily-earnings total is the old one plus the reward, and the history
entry records the realized reward. -/
theorem reward_clamped (stats : UserStats) (earningsHistory : List EarningEntry)
    (selectedSurvey : Option SurveyOption) (variance perfBoost eligBoost : Int)
    (today entryDate : String) (entryId : Int)
    (hv₁ : -5 ≤ variance) (hv₂ : variance ≤ 10) :
    (handleProcessRewards stats earningsHistory selectedSurvey variance
        perfBoost eligBoost today entryDate entryId).1.earned =
      min (max 10 ((match selectedSurvey with | some s => s.reward | none => 50)
          + variance))
        (max 0 (jsOr stats.dailyLimit 250 - jsOr stats.dailyEarnings 0)) ∧
    0 ≤ (handleProcessRewards stats earningsHistory selectedSurvey variance
        perfBoost eligBoost today entryDate entryId).1.earned ∧
    (handleProcessRewards stats earningsHistory selectedSurvey variance
        perfBoost eligBoost today entryDate entryId).1.earned ≤
      max 0 (jsOr stats.dailyLimit 250 - jsOr stats.dailyEarnings 0) ∧
    (jsOr stats.dailyEarnings 0 ≤ jsOr stats.dailyLimit 250 →
      jsOr stats.dailyEarnings 0 +
        (handleProcessRewards stats earningsHistory selectedSurvey variance
          perfBoost eligBoost today entryDate entryId).1.earned ≤
        jsOr stats.dailyLimit 250) ∧
    (handleProcessRewards stats earningsHistory selectedSurvey variance
        perfBoost eligBoost today entryDate entryId).1.stats.dailyEarnings =
      some (jsOr stats.dailyEarnings 0 +
        (handleProcessRewards stats earningsHistory selectedSurvey variance
          perfBoost eligBoost today entryDate entryId).1.earned) ∧
    (handleProcessRewards stats earningsHistory selectedSurvey variance
        perfBoost eligBoost today entryDate entryId).1.entry.amount =
      (handleProcessRewards stats earningsHistory selectedSurvey variance
        perfBoost eligBoost today entryDate entryId).1.earned := by
  simp only [handleProcessRewards]
  cases selectedSurvey with
  | none =>
    dsimp only
    split_ifs with h <;>
      exact ⟨by omega, by omega, by omega, fun hc => by omega, by trivial, by trivial⟩
  | some s =>
    dsimp only
    split_ifs with h <;>
      exact ⟨by omega, by omega, by omega, fun hc => by omega, by trivial, by trivial⟩

theorem reward_clamped_witness :
    (-5 : Int) ≤ 3 ∧ (3 : Int) ≤ 10 ∧
    (handleProcessRewards ⟨0, 65, 40, 0, some 0, some "day", some 200, some 250⟩ []
        (some ⟨"tech-trends", "Digital Trends 2025", "Technology", 5, 75,
          "Share your thoughts."⟩) 3 4 6 "day" "1 Jan" 1).1.earned =
      min (max 10 (75 + 3)) (max 0 (250 - 200)) :=
  ⟨by decide, by decide,
    (reward_clamped ⟨0, 65, 40, 0, some 0, some "day", some 200, some 250⟩ []
      (some ⟨"tech-trends", "Digital Trends 2025", "Technology", 5, 75,
        "Share your thoughts."⟩) 3 4 6 "day" "1 Jan" 1 (by decide) (by decide)).1⟩

/-! ## C2: daily reset on date rollover (corrected) -/

/-- C2 counterexample: the claim says the daily earnings cap
(`dailyLimit`) is unchanged by the rollover reset, but the
initializer's `dailyLimit || 250` replaces a stored limit of 0 by 250:
for stored stats with `dailyLimit = some 0` and a stale
`lastSurveyDate`, the post-access `dailyLimit` differs from the stored
one. -/
theorem daily_reset_counterexample :
    (⟨0, 65, 40, 0, some 2, some "Wed Jan 01 2025", some 100, some 0⟩ :
        UserStats).lastSurveyDate ≠ some "Thu Jan 02 2025" ∧
    (initStats (some ⟨0, 65, 40, 0, some 2, some "Wed Jan 01 2025", some 100, some 0⟩)
        "Thu Jan 02 2025").dailyLimit ≠
      (⟨0, 65, 40, 0, some 2, some "Wed Jan 01 2025", some 100, some 0⟩ :
        UserStats).dailyLimit := by
  decide

/-- C2 (amended): for every user whose stored `lastSurveyDate` is not
today, after the access the daily count and daily earnings are 0 and
the stored date is today; the effective daily cap (`dailyLimit`
defaulted by `|| 250`) is unchanged, and a present nonzero stored
`dailyLimit` is preserved exactly (an absent or zero stored value is
replaced by the default 250). -/
theorem daily_reset (stats : UserStats) (today : String)
    (h : stats.lastSurveyDate ≠ some today) :
    (initStats (some stats) today).dailyCount = some 0 ∧
    (initStats (some stats) today).dailyEarnings = some 0 ∧
    (initStats (some stats) today).lastSurveyDate = some today ∧
    jsOr (initStats (some stats) today).dailyLimit 250 = jsOr stats.dailyLimit 250 ∧
    (∀ v : Int, stats.dailyLimit = some v → v ≠ 0 →
      (initStats (some stats) today).dailyLimit = some v) := by
  simp only [initStats, Option.getD_some]
  rw [if_pos h]
  refine ⟨rfl, rfl, rfl, jsOr_jsOr_250 _, fun v hv hv0 => ?_⟩
  simp [hv, jsOr, hv0]

theorem daily_reset_witness :
    (⟨10, 65, 40, 2, some 2, some "Wed Jan 01 2025", some 100, some 800⟩ :
        UserStats).lastSurveyDate ≠ some "Thu Jan 02 2025" ∧
    (initStats (some ⟨10, 65, 40, 2, some 2, some "Wed Jan 01 2025", some 100, some 800⟩)
        "Thu Jan 02 2025").dailyCount = some 0 ∧
    (initStats (some ⟨10, 65, 40, 2, some 2, some "Wed Jan 01 2025", some 100, some 800⟩)
        "Thu Jan 02 2025").dailyEarnings = some 0 ∧
    (initStats (some ⟨10, 65, 40, 2, some 2, some "Wed Jan 01 2025", some 100, some 800⟩)
        "Thu Jan 02 2025").lastSurveyDate = some "Thu Jan 02 2025" ∧
    jsOr (initStats (some ⟨10, 65, 40, 2, some 2, some "Wed Jan 01 2025", some 100,
        some 800⟩) "Thu Jan 02 2025").dailyLimit 250 =
      jsOr (some 800) 250 ∧
    (∀ v : Int, (some 800 : Option Int) = some v → v ≠ 0 →
      (initStats (some ⟨10, 65, 40, 2, some 2, some "Wed Jan 01 2025", some 100,
          some 800⟩) "Thu Jan 02 2025").dailyLimit = some v) :=
  ⟨by decide,
    daily_reset ⟨10, 65, 40, 2, some 2, some "Wed Jan 01 2025", some 100, some 800⟩
      "Thu Jan 02 2025" (by decide)⟩

/-! ## C6: OTP exact-match verification and resend (corrected) -/

/-- C6 counterexample: the claim says the previously generated code
must fail after every resend, but verification only compares against
the stored string: when a resend happens to regenerate the same
5-digit code, the old code still verifies. -/
theorem otp_resend_counterexample :
    verifyOtp (resendOtp ⟨"12345"⟩ "12345") "12345" = true := by
  decide

/-- C6 (amended): OTP verification succeeds iff the entered string
equals the most recently generated code, and a resend that generates a
code different from the prior one makes the prior code fail (a resend
that regenerates the identical code leaves it valid). -/
theorem otp_verify_iff_resend (st : OtpState) (entered newCode : String) :
    (verifyOtp st entered = true ↔ entered = st.generatedOtp) ∧
    (newCode ≠ st.generatedOtp →
      verifyOtp (resendOtp st newCode) st.generatedOtp = false) := by
  constructor
  · simp [verifyOtp]
  · intro h
    simp [verifyOtp, resendOtp, Ne.symm h]

theorem otp_verify_iff_resend_witness :
    ("54321" : String) ≠ "12345" ∧
    (verifyOtp ⟨"12345"⟩ "12345" = true ↔ ("12345" : String) = "12345") ∧
    verifyOtp (resendOtp ⟨"12345"⟩ "54321") "12345" = false :=
  ⟨by decide, (otp_verify_iff_resend ⟨"12345"⟩ "12345" "54321").1,
    (otp_verify_iff_resend ⟨"12345"⟩ "12345" "54321").2 (by decide)⟩

/-! ## C7: duplicate registration fails without touching the store -/

/-- C7: a registration attempt whose trimmed username matches an
existing record case-insensitively fails with the duplicate-account
error, and the registered-user collection is returned exactly as it
was (the handler returns before any store mutation). -/
theorem register_duplicate_fails (registeredUsers : List UserData)
    (referralCode : Option String) (newUser : UserData)
    (today entryDate : String) (entryId : Int) (u : UserData)
    (hu : u ∈ registeredUsers)
    (hmatch : jsToLower u.username = jsToLower (jsTrim newUser.username)) :
    registerAttempt registeredUsers referralCode newUser today entryDate entryId =
      .failed .duplicate registeredUsers := by
  have hd : duplicateExists registeredUsers newUser.username = true := by
    simp only [duplicateExists, List.any_eq_true, decide_eq_true_eq]
    exact ⟨u, hu, hmatch⟩
  simp [registerAttempt, handleDetailsSubmit, hd]

theorem register_duplicate_fails_witness :
    sampleAliceCased ∈ [sampleAliceCased] ∧
    jsToLower sampleAliceCased.username =
      jsToLower (jsTrim (⟨" alice ", some "Password1", some "QWERTYUI12", none, none,
        none, none⟩ : UserData).username) ∧
    registerAttempt [sampleAliceCased] none
        ⟨" alice ", some "Password1", some "QWERTYUI12", none, none, none, none⟩
        "day" "1 Jan" 7 =
      .failed .duplicate [sampleAliceCased] :=
  ⟨by decide, by decide,
    register_duplicate_fails [sampleAliceCased] none
      ⟨" alice ", some "Password1", some "QWERTYUI12", none, none, none, none⟩
      "day" "1 Jan" 7 sampleAliceCased (by decide) (by decide)⟩

/-! ## C8: profile update write-through -/

/-- C8: with an active session, `handleUpdateUser` shallow-merges the
partial record into the session; positionally, every registered entry
whose username equals the session's becomes exactly the merged session
copy (write-through), while every entry with a different username is
unchanged. -/
theorem update_user_write_through (cu : UserData) (registeredUsers : List UserData)
    (updatedData : PartialUserData) :
    (handleUpdateUser (some cu) registeredUsers updatedData).1 =
      some (mergeUser cu updatedData) ∧
    List.Forall₂
      (fun u u' =>
        u' = if u.username = cu.username then mergeUser cu updatedData else u)
      registeredUsers (handleUpdateUser (some cu) registeredUsers updatedData).2 := by
  refine ⟨rfl, ?_⟩
  simp only [handleUpdateUser]
  induction registeredUsers with
  | nil => exact List.Forall₂.nil
  | cons a l ih =>
    simp only [List.map_cons]
    exact List.Forall₂.cons rfl ih

/-! ## C9: the referral lookup is case-sensitive and skips self-referral -/

/-- Crediting the first exact username match leaves a list containing
no exact match unchanged. -/
theorem creditFirstMatch_no_match (code : String) (entryId : Int)
    (entryDate newUsername today : String) :
    ∀ l : List UserData, (∀ u ∈ l, u.username ≠ code) →
      creditFirstMatch code entryId entryDate newUsername today l = l := by
  intro l
  induction l with
  | nil => intro _; rfl
  | cons a l ih =>
    intro h
    have ha : a.username ≠ code := h a (List.mem_cons_self a l)
    simp only [creditFirstMatch, if_neg ha]
    rw [ih (fun u hu => h u (List.mem_cons_of_mem a hu))]

/-- C9: the referral-bonus lookup compares the referral code against
stored usernames case-sensitively and skips the bonus when the code
equals the new user's own username — if no stored username equals the
code exactly (even when one matches up to letter case), or if the code
is the new user's username, the resulting store is exactly the old
list with the defaulted new user appended and no bonus is credited;
by contrast, the duplicate-registration check matches
case-insensitively. -/
theorem referral_lookup_case_sensitive (registeredUsers : List UserData)
    (code : String) (newUser : UserData) (today entryDate : String) (entryId : Int) :
    ((∀ u ∈ registeredUsers, u.username ≠ code) →
      (handleRegisterSuccess registeredUsers (some code) newUser today entryDate
          entryId).1 =
        registeredUsers ++ [userWithDefaults newUser today]) ∧
    (code = newUser.username →
      (handleRegisterSuccess registeredUsers (some code) newUser today entryDate
          entryId).1 =
        registeredUsers ++ [userWithDefaults newUser today]) ∧
    (∀ u ∈ registeredUsers, jsToLower u.username = jsToLower (jsTrim code) →
      duplicateExists registeredUsers code = true) := by
  refine ⟨fun h => ?_, fun h => ?_, fun u hu hm => ?_⟩
  · simp only [handleRegisterSuccess]
    by_cases hg : code ≠ "" ∧ code ≠ newUser.username
    · rw [if_pos hg]
      apply creditFirstMatch_no_match
      intro u hu
      rcases List.mem_append.mp hu with h1 | h2
      · exact h u h1
      · simp only [List.mem_singleton] at h2
        subst h2
        simpa [userWithDefaults] using Ne.symm hg.2
    · rw [if_neg hg]
  · simp only [handleRegisterSuccess]
    rw [if_neg (fun hg => hg.2 h)]
  · simp only [duplicateExists, List.any_eq_true, decide_eq_true_eq]
    exact ⟨u, hu, hm⟩

theorem referral_lookup_case_sensitive_witness :
    (∀ u ∈ [sampleAliceCased], u.username ≠ "alice") ∧
    (handleRegisterSuccess [sampleAliceCased] (some "alice") sampleBob "day" "1 Jan"
        7).1 =
      [sampleAliceCased] ++ [userWithDefaults sampleBob "day"] :=
  ⟨by decide,
    (referral_lookup_case_sensitive [sampleAliceCased] "alice" sampleBob "day" "1 Jan"
      7).1 (by decide)⟩

/-! ## C5: referral registration credits the referrer -/

/-- Crediting the first exact match in `l₁ ++ referrer :: rest` where
`l₁` has no match updates exactly the referrer and nothing else — the
semantics of `findIndex` plus single-element assignment. -/
theorem creditFirstMatch_split (code : String) (entryId : Int)
    (entryDate newUsername today : String) (referrer : UserData)
    (hcode : referrer.username = code) :
    ∀ (l₁ rest : List UserData), (∀ u ∈ l₁, u.username ≠ code) →
      creditFirstMatch code entryId entryDate newUsername today
          (l₁ ++ referrer :: rest) =
        l₁ ++ creditReferrer referrer entryId entryDate newUsername today :: rest := by
  intro l₁
  induction l₁ with
  | nil =>
    intro rest _
    simp only [List.nil_append, creditFirstMatch, if_pos hcode]
  | cons a l ih =>
    intro rest h
    have ha : a.username ≠ code := h a (List.mem_cons_self a l)
    simp only [List.cons_append, creditFirstMatch, if_neg ha]
    exact congrArg (List.cons a) (ih rest (fun u hu => h u (List.mem_cons_of_mem a hu)))

/-- C5: when registration completes with a non-empty referral code
that names an existing user (the first exact match in the store) and
differs from the new user's own username, the store afterwards is the
old list with precisely that referrer replaced by a copy whose
cumulative earnings grew by exactly 50 and whose history gained
exactly one new entry titled with the new user's name, followed by the
appended new user; the new session is the new user with the fixed
registration-default stats, unaffected by the bonus. -/
theorem referral_bonus (l₁ l₂ : List UserData) (referrer : UserData) (code : String)
    (newUser : UserData) (today entryDate : String) (entryId : Int)
    (hcode : referrer.username = code)
    (hne : code ≠ "")
    (hfirst : ∀ u ∈ l₁, u.username ≠ code)
    (hnew : code ≠ newUser.username) :
    (handleRegisterSuccess (l₁ ++ referrer :: l₂) (some code) newUser today entryDate
        entryId).1 =
      l₁ ++ creditReferrer referrer entryId entryDate newUser.username today ::
        (l₂ ++ [userWithDefaults newUser today]) ∧
    (creditReferrer referrer entryId entryDate newUser.username today).stats =
      some { referrer.stats.getD (registrationDefaultStats today) with
             earnings :=
               (referrer.stats.getD (registrationDefaultStats today)).earnings + 50 } ∧
    (creditReferrer referrer entryId entryDate newUser.username today).earningsHistory =
      some (referralEntry entryId entryDate newUser.username ::
        referrer.earningsHistory.getD []) ∧
    (referralEntry entryId entryDate newUser.username).title =
      "Referral Bonus: " ++ newUser.username ∧
    (referralEntry entryId entryDate newUser.username).amount = 50 ∧
    (handleRegisterSuccess (l₁ ++ referrer :: l₂) (some code) newUser today entryDate
        entryId).2 = userWithDefaults newUser today ∧
    (userWithDefaults newUser today).stats = some (registrationDefaultStats today) := by
  refine ⟨?_, rfl, rfl, rfl, rfl, rfl, rfl⟩
  simp only [handleRegisterSuccess]
  rw [if_pos ⟨hne, hnew⟩]
  have hassoc : (l₁ ++ referrer :: l₂) ++ [userWithDefaults newUser today] =
      l₁ ++ referrer :: (l₂ ++ [userWithDefaults newUser today]) := by
    simp
  rw [hassoc, creditFirstMatch_split code entryId entryDate newUser.username today
    referrer hcode l₁ _ hfirst]

theorem referral_bonus_witness :
    sampleAlice.username = "alice" ∧
    ("alice" : String) ≠ "" ∧
    (∀ u ∈ ([] : List UserData), u.username ≠ "alice") ∧
    ("alice" : String) ≠ sampleBob.username ∧
    ((handleRegisterSuccess ([] ++ sampleAlice :: []) (some "alice") sampleBob "day"
        "1 Jan" 7).1 =
      [] ++ creditReferrer sampleAlice 7 "1 Jan" sampleBob.username "day" ::
        ([] ++ [userWithDefaults sampleBob "day"]) ∧
    (creditReferrer sampleAlice 7 "1 Jan" sampleBob.username "day").stats =
      some { sampleAlice.stats.getD (registrationDefaultStats "day") with
             earnings :=
               (sampleAlice.stats.getD (registrationDefaultStats "day")).earnings
                 + 50 } ∧
    (creditReferrer sampleAlice 7 "1 Jan" sampleBob.username "day").earningsHistory =
      some (referralEntry 7 "1 Jan" sampleBob.username ::
        sampleAlice.earningsHistory.getD []) ∧
    (referralEntry 7 "1 Jan" sampleBob.username).title =
      "Referral Bonus: " ++ sampleBob.username ∧
    (referralEntry 7 "1 Jan" sampleBob.username).amount = 50 ∧
    (handleRegisterSuccess ([] ++ sampleAlice :: []) (some "alice") sampleBob "day"
        "1 Jan" 7).2 = userWithDefaults sampleBob "day" ∧
    (userWithDefaults sampleBob "day").stats =
      some (registrationDefaultStats "day")) :=
  ⟨by decide, by decide, by decide, by decide,
    referral_bonus [] [] sampleAlice "alice" sampleBob "day" "1 Jan" 7
      (by decide) (by decide) (by decide) (by decide)⟩

end GlobalSurvey
